import Mathlib

/-!
Verification development for the DenoiSeg example repository, whose single
source file is the notebook `examples/DenoiSeg_2D/FlyWing_DenoiSeg_Example.ipynb`.
The notebook is a straight-line sequence of code cells; we embed the sequence
of operations it performs, the concrete values it computes (input assertions,
the steps-per-epoch formula, the configuration keyword arguments, the dataset
keys it reads) and the conditional download/extract block, all translated
directly from the notebook's code cells.
-/

namespace DenoiSegExample

/-- The kinds of operations performed by the notebook's code cells, one
constructor per code cell (markdown cells carry no behaviour). The order of
`notebookSteps` below is the order of the cells in the file. -/
inductive Step
  | importDeps        -- cell 1: imports
  | selector          -- cell 3: noise_level assignment
  | download          -- cell 4: data dir creation, link selection, download/unzip
  | loadTrain         -- cell 5: np.load of train_data.npz
  | printShapes       -- cell 6: shape prints
  | assertAnnotated   -- cell 8: number_of_annotated_training_images assertion
  | sparsifyAugment   -- cell 9: shuffle, zero_out_train_data, augment, one-hot
  | plotSamples       -- cell 11: plt.subplot sample visualization
  | computeSteps      -- cell 13: train_steps_per_epoch computation
  | buildConfig       -- cell 15: DenoiSegConfig construction
  | constructModel    -- cell 16: DenoiSeg(conf, model_name, basedir)
  | trainModel        -- cell 17: model.train
  | inspectHistory    -- cell 18: history.history.keys()
  | plotHistory       -- cell 19: plot_history
  | optimizeThresholds -- cell 21: model.optimize_thresholds
  | loadTest          -- cell 23: np.load of test_data.npz
  | predictMasks      -- cell 24: model.predict_label_masks
  | plotResults       -- cell 26: result visualization
  | printSummary      -- cell 27: summary prints
  | exportTF          -- cell 31: model.export_TF
  deriving DecidableEq, Repr

/-- The notebook's code cells in file order. -/
def notebookSteps : List Step :=
  [.importDeps, .selector, .download, .loadTrain, .printShapes,
   .assertAnnotated, .sparsifyAugment, .plotSamples, .computeSteps,
   .buildConfig, .constructModel, .trainModel, .inspectHistory, .plotHistory,
   .optimizeThresholds, .loadTest, .predictMasks, .plotResults, .printSummary,
   .exportTF]

/-- Steps that call `plt` plotting (cells 11, 19, 26). -/
def isPlot : Step → Bool
  | .plotSamples => true
  | .plotHistory => true
  | .plotResults => true
  | _ => false

/-- Steps that invoke a method (or the constructor) of the external model
object: `DenoiSeg(...)`, `model.train`, `model.optimize_thresholds`,
`model.predict_label_masks`, `model.export_TF`. -/
def isModelCall : Step → Bool
  | .constructModel => true
  | .trainModel => true
  | .optimizeThresholds => true
  | .predictMasks => true
  | .exportTF => true
  | _ => false

/-- The step constructing the configuration object (`DenoiSegConfig(...)`). -/
def isConfigConstruction : Step → Bool
  | .buildConfig => true
  | _ => false

/-- The ordering property claimed for the notebook: every configuration
construction precedes every plotting step, and every plotting step follows
every model delegation call. -/
def configBeforePlotsAndPlotsAfterModelCalls (l : List Step) : Prop :=
  (∀ i j : Fin l.length,
      isConfigConstruction (l.get i) = true → isPlot (l.get j) = true →
      i.val < j.val) ∧
  (∀ i j : Fin l.length,
      isPlot (l.get i) = true → isModelCall (l.get j) = true →
      j.val < i.val)

instance (l : List Step) : Decidable (configBeforePlotsAndPlotsAfterModelCalls l) := by
  unfold configBeforePlotsAndPlotsAfterModelCalls
  infer_instance

/-- Cell 8: `assert number_of_annotated_training_images >= 0.0 and
number_of_annotated_training_images <= train_images.shape[0]`. The user-chosen
value may be fractional (the comment in the cell allows `0.0`), so we take it
as a rational; the shape is a natural number. -/
def annotatedAssertion (n : ℚ) (total : ℕ) : Bool :=
  decide (n ≥ 0) && decide (n ≤ (total : ℚ))

/-- Cell 9: `percentage_of_annotated_training_images =
float((number_of_annotated_training_images/train_images.shape[0])*100.0)`. -/
def percentage (n : ℚ) (total : ℕ) : ℚ :=
  (n / (total : ℚ)) * 100

/-- Cell 9: `assert percentage_of_annotated_training_images >= 0.0 and
percentage_of_annotated_training_images <= 100.0`. -/
def percentageAssertion (p : ℚ) : Bool :=
  decide (p ≥ 0) && decide (p ≤ 100)

/-- Cell 4, link selection: the `if/elif/elif/else` chain on `noise_level`.
Returns the assigned download link (`none` when no assignment happens) and
whether the fallback print statement ran. -/
def selectLink (noise_level : String) : Option String × Bool :=
  if noise_level = "n0" then
    (some "https://owncloud.mpi-cbg.de/index.php/s/liMinMlacVYnldB/download", false)
  else if noise_level = "n10" then
    (some "https://owncloud.mpi-cbg.de/index.php/s/llTDhwvxgmDdQ3B/download", false)
  else if noise_level = "n20" then
    (some "https://owncloud.mpi-cbg.de/index.php/s/s1XEtPnKTvR64aG/download", false)
  else
    (none, true)

/-- Cell 4: `zipPath = "data/Flywing_{}.zip".format(noise_level)`. -/
def zipPath (noise_level : String) : String :=
  "data/Flywing_" ++ noise_level ++ ".zip"

/-- Cell 4, download block: `if not os.path.exists(zipPath): urlretrieve(...);
extractall("data")`. The filesystem is a list of paths; `extracted` is the
content of the archive. Returns the new filesystem and two flags: whether a
network retrieval happened and whether an extraction happened. -/
def downloadBlock (extracted : List String) (noise_level : String)
    (fs : List String) : List String × Bool × Bool :=
  if zipPath noise_level ∈ fs then (fs, false, false)
  else (fs ++ zipPath noise_level :: extracted, true, true)

/-- Cell 4, first statement: `if not os.path.isdir('./data'): os.mkdir('data')`. -/
def ensureDataDir (fs : List String) : List String :=
  if "data" ∈ fs then fs else fs ++ ["data"]

/-- Cell 4 as a whole acting on the filesystem: create the data directory if
missing, then run the download/extract block. -/
def dataSetup (extracted : List String) (noise_level : String)
    (fs : List String) : List String :=
  (downloadBlock extracted noise_level (ensureDataDir fs)).1

/-- Cell 13: `train_steps_per_epoch = max(100, min(int(X.shape[0]/
train_batch_size), 400))` with `train_batch_size = 128`; `int(x/128)` on a
non-negative integer shape is floor division. -/
def trainStepsPerEpoch (s : ℕ) : ℕ :=
  max 100 (min (s / 128) 400)

/-- Cell 5: the keys read from `train_data.npz`, paired with whether the
loaded array is converted with `.astype(np.float32)`. -/
def trainvalKeysRead : List (String × Bool) :=
  [("X_train", true), ("Y_train", false), ("X_val", true), ("Y_val", false)]

/-- Cell 23: the keys read from `test_data.npz`, paired with whether the
loaded array is converted with `.astype(np.float32)`. -/
def testKeysRead : List (String × Bool) :=
  [("X_test", false), ("Y_test", false)]

/-- Modelled from the spec: the dataset archives themselves are external
downloads, not files of this repository; the spec states they contain exactly
the labeled arrays X_train, Y_train, X_val, Y_val, X_test, Y_test. -/
def archiveKeys : List String :=
  ["X_train", "Y_train", "X_val", "Y_val", "X_test", "Y_test"]

/-- Values appearing as keyword arguments of the `DenoiSegConfig` call. -/
inductive ConfigValue
  | nat (n : ℕ)
  | bool (b : Bool)
  | rat (q : ℚ)
  | ratList (l : List ℚ)
  deriving DecidableEq, Repr

/-- Cell 15: the keyword arguments of the `DenoiSegConfig(X, ...)` call, in
source order. `steps` is the `train_steps_per_epoch` value computed in
cell 13 and passed through. -/
def denoiSegConfigKwargs (steps : ℕ) : List (String × ConfigValue) :=
  [("unet_kern_size", .nat 3),
   ("n_channel_out", .nat 4),
   ("relative_weights", .ratList [1, 1, 5]),
   ("train_steps_per_epoch", .nat steps),
   ("train_epochs", .nat 200),
   ("batch_norm", .bool true),
   ("train_batch_size", .nat 128),
   ("unet_n_first", .nat 32),
   ("unet_n_depth", .nat 4),
   ("denoiseg_alpha", .rat (1/2)),
   ("train_tensorboard", .bool false)]

/-- C1: the cell-8 assertion on `number_of_annotated_training_images` succeeds
iff `0 ≤ n ≤ train_images.shape[0]`; the boundary values 0 and the total count
both pass; and the assertion cell precedes the cell that zeroes out training
data. -/
theorem annotated_assertion_iff_in_range (n : ℚ) (total : ℕ) :
    (annotatedAssertion n total = true ↔ 0 ≤ n ∧ n ≤ (total : ℚ)) ∧
    annotatedAssertion 0 total = true ∧
    annotatedAssertion (total : ℚ) total = true ∧
    List.indexOf Step.assertAnnotated notebookSteps <
      List.indexOf Step.sparsifyAugment notebookSteps := by
  refine ⟨?_, ?_, ?_, by decide⟩
  · simp [annotatedAssertion, Bool.and_eq_true, decide_eq_true_eq, ge_iff_le,
      and_comm]
  · simp [annotatedAssertion]
  · simp [annotatedAssertion]

/-- Witness for C1: the demo value 5 with 1428 training patches is in range,
and the assertion accepts it. -/
theorem annotated_assertion_iff_in_range_witness :
    annotatedAssertion 5 1428 = true :=
  (annotated_assertion_iff_in_range 5 1428).1.mpr
    ⟨by norm_num, by norm_num⟩

/-- C2 counterexample: it is false that configuration construction precedes
all plotting and that all plotting follows the model delegation calls — the
cell-11 sample-visualization plot precedes both the `DenoiSegConfig` call and
every model call. -/
theorem notebook_plot_order_cex :
    ¬ configBeforePlotsAndPlotsAfterModelCalls notebookSteps := by
  decide

/-- C2 amended: the phases (a) import, (b) download, (c) loading,
(d) sparsification/augmentation, (e) configuration, (f) model delegation occur
in that order, and configuration construction precedes every model call; but
plotting is interleaved: the sample-visualization plot follows augmentation
and precedes configuration construction, the history plot follows `train` but
precedes threshold optimization, prediction and export, and the results plot
follows prediction and precedes export. -/
theorem notebook_phase_order :
    List.indexOf Step.importDeps notebookSteps <
      List.indexOf Step.download notebookSteps ∧
    List.indexOf Step.download notebookSteps <
      List.indexOf Step.loadTrain notebookSteps ∧
    List.indexOf Step.loadTrain notebookSteps <
      List.indexOf Step.sparsifyAugment notebookSteps ∧
    List.indexOf Step.sparsifyAugment notebookSteps <
      List.indexOf Step.buildConfig notebookSteps ∧
    (∀ i j : Fin notebookSteps.length,
      isConfigConstruction (notebookSteps.get i) = true →
      isModelCall (notebookSteps.get j) = true → i.val < j.val) ∧
    List.indexOf Step.sparsifyAugment notebookSteps <
      List.indexOf Step.plotSamples notebookSteps ∧
    List.indexOf Step.plotSamples notebookSteps <
      List.indexOf Step.buildConfig notebookSteps ∧
    List.indexOf Step.trainModel notebookSteps <
      List.indexOf Step.plotHistory notebookSteps ∧
    List.indexOf Step.plotHistory notebookSteps <
      List.indexOf Step.optimizeThresholds notebookSteps ∧
    List.indexOf Step.plotHistory notebookSteps <
      List.indexOf Step.predictMasks notebookSteps ∧
    List.indexOf Step.plotHistory notebookSteps <
      List.indexOf Step.exportTF notebookSteps ∧
    List.indexOf Step.predictMasks notebookSteps <
      List.indexOf Step.plotResults notebookSteps ∧
    List.indexOf Step.plotResults notebookSteps <
      List.indexOf Step.exportTF notebookSteps := by
  decide

/-- C3 counterexample: the notebook invokes exactly the five named model
operations (construct, train, optimize-threshold, predict, export), so the
number of distinct key model operations is 5, not 4 as the claim states. -/
theorem model_call_count_cex :
    notebookSteps.filter isModelCall =
      [Step.constructModel, Step.trainModel, Step.optimizeThresholds,
       Step.predictMasks, Step.exportTF] ∧
    (notebookSteps.filter isModelCall).length ≠ 4 := by
  decide

/-- C3 amended: the notebook's interaction with the model object consists of
exactly five key calls — construct, train, optimize-threshold, predict,
export-to-interchange-format — each invoked once, with no other model
operation. -/
theorem model_call_operations :
    notebookSteps.filter isModelCall =
      [Step.constructModel, Step.trainModel, Step.optimizeThresholds,
       Step.predictMasks, Step.exportTF] ∧
    (notebookSteps.filter isModelCall).length = 5 ∧
    (notebookSteps.filter isModelCall).Nodup := by
  decide

/-- C4: for any noise level other than n0, n10, n20 the selector branch only
runs the fallback print — no link is assigned, nothing is raised, no recovery
happens — and execution proceeds to the download step, which follows the
selector in the cell order. -/
theorem unknown_noise_level_prints_only (s : String)
    (h0 : s ≠ "n0") (h10 : s ≠ "n10") (h20 : s ≠ "n20") :
    selectLink s = (none, true) ∧
    List.indexOf Step.selector notebookSteps <
      List.indexOf Step.download notebookSteps := by
  refine ⟨?_, by decide⟩
  simp [selectLink, h0, h10, h20]

/-- Witness for C4: the unknown value n5 triggers only the fallback print. -/
theorem unknown_noise_level_prints_only_witness :
    selectLink "n5" = (none, true) :=
  (unknown_noise_level_prints_only "n5" (by decide) (by decide) (by decide)).1

/-- C5: the notebook reads exactly X_train, Y_train, X_val, Y_val from the
train npz and exactly X_test, Y_test from the test npz — together exactly the
six archive keys the spec names — and converts exactly X_train and X_val to
float32 on load. -/
theorem dataset_keys_read :
    trainvalKeysRead.map Prod.fst = ["X_train", "Y_train", "X_val", "Y_val"] ∧
    testKeysRead.map Prod.fst = ["X_test", "Y_test"] ∧
    trainvalKeysRead.map Prod.fst ++ testKeysRead.map Prod.fst = archiveKeys ∧
    (trainvalKeysRead.filter Prod.snd).map Prod.fst = ["X_train", "X_val"] ∧
    testKeysRead.filter Prod.snd = [] := by
  decide

/-- C6: the `DenoiSegConfig` call passes exactly the eleven enumerated keyword
options, with the stated values (and the computed steps-per-epoch value passed
through), and no other option. -/
theorem config_options (steps : ℕ) :
    (denoiSegConfigKwargs steps).map Prod.fst =
      ["unet_kern_size", "n_channel_out", "relative_weights",
       "train_steps_per_epoch", "train_epochs", "batch_norm",
       "train_batch_size", "unet_n_first", "unet_n_depth",
       "denoiseg_alpha", "train_tensorboard"] ∧
    (denoiSegConfigKwargs steps).length = 11 ∧
    denoiSegConfigKwargs steps =
      [("unet_kern_size", .nat 3),
       ("n_channel_out", .nat 4),
       ("relative_weights", .ratList [1, 1, 5]),
       ("train_steps_per_epoch", .nat steps),
       ("train_epochs", .nat 200),
       ("batch_norm", .bool true),
       ("train_batch_size", .nat 128),
       ("unet_n_first", .nat 32),
       ("unet_n_depth", .nat 4),
       ("denoiseg_alpha", .rat (1/2)),
       ("train_tensorboard", .bool false)] := by
  exact ⟨rfl, rfl, rfl⟩

/-- C7 counterexample: starting from an empty filesystem, the notebook's own
data-setup code (cell 4) leaves files on disk — the data directory, the
downloaded zip and the extracted archive — refuting the claim that the
notebook leaves no files of its own. -/
theorem own_files_cex :
    dataSetup ["data/Flywing_n20/train/train_data.npz",
               "data/Flywing_n20/test/test_data.npz"] "n20" [] ≠ [] := by
  decide

/-- C7 amended: apart from passing arrays to the external framework (which
writes its own model and export artifacts), the notebook's own persistent
filesystem footprint is exactly the dataset acquisition of cell 4: the data
directory, the downloaded zip archive, and the files extracted from it. -/
theorem own_files_amended :
    dataSetup ["data/Flywing_n20/train/train_data.npz",
               "data/Flywing_n20/test/test_data.npz"] "n20" [] =
      ["data", "data/Flywing_n20.zip",
       "data/Flywing_n20/train/train_data.npz",
       "data/Flywing_n20/test/test_data.npz"] := by
  decide

/-- C8: whenever the cell-8 assertion holds and there is at least one training
image, the derived percentage lies in [0, 100], so the cell-9 assertion
succeeds — its failure branch is unreachable. -/
theorem percentage_assertion_unreachable (n : ℚ) (total : ℕ)
    (h : annotatedAssertion n total = true) (hpos : 0 < total) :
    0 ≤ percentage n total ∧ percentage n total ≤ 100 ∧
    percentageAssertion (percentage n total) = true := by
  rw [annotatedAssertion, Bool.and_eq_true, decide_eq_true_eq,
    decide_eq_true_eq] at h
  obtain ⟨h0, hle⟩ := h
  have htot : (0 : ℚ) < total := by exact_mod_cast hpos
  have hdiv0 : 0 ≤ n / (total : ℚ) := div_nonneg h0 htot.le
  have hdiv1 : n / (total : ℚ) ≤ 1 := (div_le_one htot).mpr hle
  have hp0 : 0 ≤ percentage n total := by
    unfold percentage
    exact mul_nonneg hdiv0 (by norm_num)
  have hp100 : percentage n total ≤ 100 := by
    unfold percentage
    nlinarith
  exact ⟨hp0, hp100, by
    rw [percentageAssertion, Bool.and_eq_true]
    exact ⟨decide_eq_true hp0, decide_eq_true hp100⟩⟩

/-- Witness for C8: with 5 of 1428 images annotated the percentage assertion
holds. -/
theorem percentage_assertion_unreachable_witness :
    annotatedAssertion 5 1428 = true ∧ 0 < 1428 ∧
    percentageAssertion (percentage 5 1428) = true :=
  ⟨by norm_num [annotatedAssertion], by norm_num,
   (percentage_assertion_unreachable 5 1428
      (by norm_num [annotatedAssertion]) (by norm_num)).2.2⟩

/-- C9: the computed steps-per-epoch always lies in [100, 400]; it equals 100
whenever the quotient shape/128 is at most 100, and 400 whenever that quotient
is at least 400. -/
theorem trainStepsPerEpoch_bounds (s : ℕ) :
    (100 ≤ trainStepsPerEpoch s ∧ trainStepsPerEpoch s ≤ 400) ∧
    (s / 128 ≤ 100 → trainStepsPerEpoch s = 100) ∧
    (400 ≤ s / 128 → trainStepsPerEpoch s = 400) := by
  unfold trainStepsPerEpoch
  omega

/-- Witness for C9: the demo's augmented training set of 11424 patches gives
100 steps per epoch, while 128000 samples would give 400. -/
theorem trainStepsPerEpoch_bounds_witness :
    trainStepsPerEpoch 11424 = 100 ∧ trainStepsPerEpoch 128000 = 400 :=
  ⟨(trainStepsPerEpoch_bounds 11424).2.1 (by decide),
   (trainStepsPerEpoch_bounds 128000).2.2 (by decide)⟩

/-- C10: the cell-4 download block is idempotent with respect to the archive:
if the zip already exists nothing is retrieved or extracted and the filesystem
is unchanged; a second run after a successful first run changes nothing; and
retrieval and extraction happen exactly when the zip is absent. -/
theorem downloadBlock_idempotent (extracted : List String)
    (noise_level : String) (fs : List String) :
    (zipPath noise_level ∈ fs →
      downloadBlock extracted noise_level fs = (fs, false, false)) ∧
    downloadBlock extracted noise_level
        (downloadBlock extracted noise_level fs).1 =
      ((downloadBlock extracted noise_level fs).1, false, false) ∧
    (zipPath noise_level ∉ fs →
      (downloadBlock extracted noise_level fs).2 = (true, true)) := by
  refine ⟨fun h => by simp [downloadBlock, h], ?_, fun h => by
    simp [downloadBlock, h]⟩
  by_cases h : zipPath noise_level ∈ fs
  · simp [downloadBlock, h]
  · simp [downloadBlock, h]

/-- Witness for C10: with the zip present the block is a no-op; with it absent
the block retrieves and extracts. -/
theorem downloadBlock_idempotent_witness :
    downloadBlock ["data/Flywing_n20/train/train_data.npz"] "n20"
        ["data", "data/Flywing_n20.zip"] =
      (["data", "data/Flywing_n20.zip"], false, false) ∧
    (downloadBlock ["data/Flywing_n20/train/train_data.npz"] "n20"
        ["data"]).2 = (true, true) :=
  ⟨(downloadBlock_idempotent ["data/Flywing_n20/train/train_data.npz"]
      "n20" ["data", "data/Flywing_n20.zip"]).1 (by decide),
   (downloadBlock_idempotent ["data/Flywing_n20/train/train_data.npz"]
      "n20" ["data"]).2.2 (by decide)⟩

end DenoiSegExample
